import Mathlib

/-!
Verification of the bhttp library (github.com/advdv/bhttp): a buffered,
error-returning HTTP handler pipeline over the Go standard library mux.

The development shallowly embeds the Go source:

* `src/response_buffer.go` — the `ResponseBuffer` state machine (buffered
  response writer with a byte cap, header latching and flush flags).
* `src/middleware.go` — `Chain` / `ChainStd` middleware composition.
* `src/serve_mux.go` — the `ServeMux` registration state (`Use`, `BUse`,
  `Handle`, `ensureNoUseAfterHandle`).
* the mounting file (`Mount` / `MountBare` / `splitMethodPattern` /
  `stripPrefixBare`) — prefix mounting with path rewriting.
* the reverser file (`Reverser`, `NamedPattern`, `Reverse`).
* `errors.go` — the `Code` taxonomy, `*Error` values and `CodeOf`.

Go strings are modelled as `List Char`, Go byte slices (request bodies,
buffered bytes) as `List Char` as well, Go maps as association lists, and Go
panics as `Option`/`Except` results.  The host `http.ResponseWriter` is
modelled as a trace-recording state (`HostWriter`) so that theorems can count
the `WriteHeader` calls and the body chunks the host receives.
-/

namespace Bhttp

/-- Go string, modelled as a list of characters. -/
abbrev Str := List Char

/-- Go `strings.Index(s, c)` for a single byte: index of the first occurrence
of `c` in `s`, or `-1` when absent. -/
def goIndex : Str → Char → Int
  | [], _ => -1
  | a :: rest, c =>
      if a = c then 0
      else
        let r := goIndex rest c
        if r < 0 then -1 else r + 1

/-- Go `strings.LastIndex(s, c)` for a single byte: index of the last
occurrence of `c` in `s`, or `-1` when absent. -/
def goLastIndex : Str → Char → Int
  | [], _ => -1
  | a :: rest, c =>
      let r := goLastIndex rest c
      if 0 ≤ r then r + 1
      else if a = c then 0 else -1

/-- Go `strings.TrimPrefix(s, pfx)`: drops `pfx` from the front of `s` when
`s` starts with it, and returns `s` unchanged otherwise. -/
def goTrimPfx (s pfx : Str) : Str :=
  if pfx.isPrefixOf s then s.drop pfx.length else s

/-- Go `strings.HasPrefix`. -/
def goHasPfx (s pfx : Str) : Bool := pfx.isPrefixOf s

/-- Header map of a Go `http.Header`, modelled as an association list from
canonical keys to values (one value per key suffices for the claims). -/
abbrev HeaderMap := List (String × String)

/-- Go `http.Header.Set(k, v)`: replace any existing entry for `k`. -/
def headerMapSet (h : HeaderMap) (k v : String) : HeaderMap :=
  (h.filter (fun e => e.1 ≠ k)) ++ [(k, v)]

/-- The host `http.ResponseWriter` underneath a `ResponseBuffer`, modelled as
a trace: its header map, every `WriteHeader` status it received, every body
chunk written to it, and a flag making its `Write` fail (to model an
underlying writer that errors, as in the flush-error tests). -/
structure HostWriter where
  headers : HeaderMap
  statusWrites : List Nat
  bodyChunks : List Str
  failWrites : Bool
deriving Repr, DecidableEq

/-- Errors returned by `ResponseBuffer` operations.  `bufferFull` models an
error wrapping `ErrBufferFull` (`errors.Is(err, ErrBufferFull)` holds);
`underlyingWrite` models the wrapped error from a failing host write. -/
inductive BufErr where
  | bufferFull
  | underlyingWrite
deriving Repr, DecidableEq

/-- `ResponseBuffer` from `src/response_buffer.go`: the buffered response
writer.  Field for field the Go struct, with the host writer inlined as
state (`resp`), the byte cap `limit` (negative = unlimited), the deferred
`status`, the header-latch and body-flushed flags, and the side header map
allocated after latching (`none` models the nil Go map). -/
structure ResponseBuffer where
  resp : HostWriter
  buf : Str
  limit : Int
  status : Nat
  headerFlushed : Bool
  bodyFlushed : Bool
  unflushableHeader : Option HeaderMap
deriving Repr, DecidableEq

namespace ResponseBuffer

/-- `newBufferResponse(resp, limit)`: a fresh buffer bound to the host writer
with the given cap; status starts at `http.StatusOK = 200`, flags cleared,
buffer empty (pool acquisition resets these fields). -/
def newBufferResponse (resp : HostWriter) (limit : Int) : ResponseBuffer :=
  { resp := resp
    buf := []
    limit := limit
    status := 200
    headerFlushed := false
    bodyFlushed := false
    unflushableHeader := none }

/-- `markHeaderAsFlushed`: latch the headers. -/
def markHeaderAsFlushed (w : ResponseBuffer) : ResponseBuffer :=
  { w with headerFlushed := true }

/-- `WriteHeader(statusCode)`: records the status code and latches headers;
a no-op once headers are latched. -/
def WriteHeader (w : ResponseBuffer) (statusCode : Nat) : ResponseBuffer :=
  if w.headerFlushed then w
  else markHeaderAsFlushed { w with status := statusCode }

/-- `Header()`: before the latch, the underlying writer's header map; after
the latch, the side buffer that never reaches the wire (allocated on first
use, mirroring the nil check in the source).  Returns the visible map
together with the state after the possible allocation. -/
def Header (w : ResponseBuffer) : HeaderMap × ResponseBuffer :=
  if w.headerFlushed then
    match w.unflushableHeader with
    | none => ([], { w with unflushableHeader := some [] })
    | some h => (h, w)
  else
    (w.resp.headers, w)

/-- `w.Header().Set(k, v)`: mutate whichever map `Header()` returned — the
host map before latching, the side map after. -/
def headerSet (w : ResponseBuffer) (k v : String) : ResponseBuffer :=
  if w.headerFlushed then
    let side := (w.unflushableHeader.getD [])
    { w with unflushableHeader := some (headerMapSet side k v) }
  else
    { w with resp := { w.resp with headers := headerMapSet w.resp.headers k v } }

/-- `Reset()`: panics (`none`) when the body was already flushed; otherwise
deletes every key of the underlying writer's header map, un-latches the
headers, restores status 200 and empties the buffer. -/
def Reset (w : ResponseBuffer) : Option ResponseBuffer :=
  if w.bodyFlushed then none
  else some
    { w with
      resp := { w.resp with headers := [] }
      headerFlushed := false
      status := 200
      buf := [] }

/-- The panic message of `Reset` after an explicit flush. -/
def resetPanicMsg : String := "bhttp: response buffer is already flushed"

/-- `Write(p)`: rejected with an `ErrBufferFull`-wrapping error (and no state
change) when a non-negative cap would be exceeded; otherwise latches headers
and appends `p` to the internal buffer, returning the count written. -/
def Write (w : ResponseBuffer) (p : Str) : (Nat × Option BufErr) × ResponseBuffer :=
  if 0 ≤ w.limit ∧ w.limit < (w.buf.length + p.length : Int) then
    ((0, some .bufferFull), w)
  else
    ((p.length, none), { (markHeaderAsFlushed w) with buf := w.buf ++ p })

/-- `FlushBuffer()`: latches headers, calls `WriteHeader(status)` on the host
writer, then streams the buffered bytes to it (`bytes.Buffer.WriteTo` makes
no host `Write` call when the buffer is empty, and on a host write error the
unwritten bytes stay in the buffer).  Only a fully successful flush sets
`bodyFlushed`. -/
def FlushBuffer (w : ResponseBuffer) : ResponseBuffer × Option BufErr :=
  let w := markHeaderAsFlushed w
  let host := { w.resp with statusWrites := w.resp.statusWrites ++ [w.status] }
  if w.buf = [] then
    ({ w with resp := host, bodyFlushed := true }, none)
  else if host.failWrites then
    ({ w with resp := host }, some .underlyingWrite)
  else
    ({ w with
        resp := { host with bodyChunks := host.bodyChunks ++ [w.buf] }
        buf := []
        bodyFlushed := true }, none)

end ResponseBuffer

/-- Go `http.StatusText` restricted to the framework's closed code set (the
HTTP 4xx and 5xx rows of the Go standard library table); `""` for any other
code, as in the standard library. -/
def statusText : Nat → String
  | 400 => "Bad Request"
  | 401 => "Unauthorized"
  | 402 => "Payment Required"
  | 403 => "Forbidden"
  | 404 => "Not Found"
  | 405 => "Method Not Allowed"
  | 406 => "Not Acceptable"
  | 407 => "Proxy Authentication Required"
  | 408 => "Request Timeout"
  | 409 => "Conflict"
  | 410 => "Gone"
  | 411 => "Length Required"
  | 412 => "Precondition Failed"
  | 413 => "Request Entity Too Large"
  | 414 => "Request URI Too Long"
  | 415 => "Unsupported Media Type"
  | 416 => "Requested Range Not Satisfiable"
  | 417 => "Expectation Failed"
  | 418 => "I\x27m a teapot"
  | 421 => "Misdirected Request"
  | 422 => "Unprocessable Entity"
  | 423 => "Locked"
  | 424 => "Failed Dependency"
  | 425 => "Too Early"
  | 426 => "Upgrade Required"
  | 428 => "Precondition Required"
  | 429 => "Too Many Requests"
  | 431 => "Request Header Fields Too Large"
  | 451 => "Unavailable For Legal Reasons"
  | 500 => "Internal Server Error"
  | 501 => "Not Implemented"
  | 502 => "Bad Gateway"
  | 503 => "Service Unavailable"
  | 504 => "Gateway Timeout"
  | 505 => "HTTP Version Not Supported"
  | 506 => "Variant Also Negotiates"
  | 507 => "Insufficient Storage"
  | 508 => "Loop Detected"
  | 510 => "Not Extended"
  | 511 => "Network Authentication Required"
  | _ => ""

/-- `CodeUnknown = 0`, the sentinel of the `Code` taxonomy in `errors.go`. -/
def CodeUnknown : Nat := 0

/-- Go error chains as produced by the framework and its callers: a base
error with a message, a framework `*Error` (`NewError(code, cause)`), or a
`fmt.Errorf("...: %w", cause)` wrapper. -/
inductive GoErr where
  | base (msg : String)
  | berror (code : Nat) (cause : GoErr)
  | wrap (msg : String) (cause : GoErr)
deriving Repr, DecidableEq

namespace GoErr

/-- `errors.As(err, &target)` for `target : **Error`: walk the chain for the
first framework `*Error`, as `asError` in `errors.go` does. -/
def asError : GoErr → Option (Nat × GoErr)
  | base _ => none
  | berror code cause => some (code, cause)
  | wrap _ cause => asError cause

/-- `CodeOf(err)`: the code of the first framework `*Error` in the chain, or
`CodeUnknown` when the chain holds none. -/
def CodeOf (e : GoErr) : Nat :=
  match asError e with
  | some (code, _) => code
  | none => CodeUnknown

/-- `err.Error()`: framework errors format as `"<Status Text>: <cause>"`
with `"Unknown"` when the code has no canonical text; wrappers prepend
their message. -/
def errString : GoErr → String
  | base msg => msg
  | berror code cause =>
      (if statusText code = "" then "Unknown" else statusText code) ++ ": " ++ errString cause
  | wrap msg cause => msg ++ ": " ++ errString cause

end GoErr

/-! ### The serve adapter

The current `ToStd` of the repository is exercised by `TestHandleDefaultBError`,
`TestHandleBasic` and `TestSuperfluousWriteOnError` but its implementation file
is not among the sources (the `handle.go` present is an earlier revision whose
own tests expect plain 500 mapping); the error mapping below is therefore
modelled from the spec (§4.6).

A bare handler is embedded as a straight-line trace of buffered-writer
actions together with the error it returns: every concrete handler run
against a concrete request produces such a trace. -/

/-- One buffered-writer action a handler (or middleware) may perform:
writing bytes, setting the status, mutating a header, or resetting. -/
inductive HAction where
  | write (data : Str)
  | writeHeader (code : Nat)
  | setHeader (k v : String)
  | reset
deriving Repr, DecidableEq

/-- `Reset` with the panic branch kept as the unchanged state; used where
the body cannot have been flushed yet, so the panic branch is unreachable. -/
def resetOrKeep (w : ResponseBuffer) : ResponseBuffer :=
  match w.Reset with
  | some w2 => w2
  | none => w

/-- Run one handler action on the buffered writer.  A rejected `Write` leaves
the state unchanged (the handler drops the returned error); `Reset` cannot
panic before any flush, and the impossible panic branch keeps the state. -/
def runAction (w : ResponseBuffer) : HAction → ResponseBuffer
  | .write data => (w.Write data).2
  | .writeHeader code => w.WriteHeader code
  | .setHeader k v => w.headerSet k v
  | .reset => resetOrKeep w

/-- Run a handler's whole action trace. -/
def runActions (w : ResponseBuffer) : List HAction → ResponseBuffer
  | [] => w
  | a :: rest => runActions (runAction w a) rest

/-- Go `http.Error(w, error, code)` against the buffered writer: set the
plain-text content type, write the status, then the message and a trailing
newline. -/
def httpErrorRB (w : ResponseBuffer) (msg : String) (code : Nat) : ResponseBuffer :=
  let w := w.headerSet "Content-Type" "text/plain; charset=utf-8"
  let w := w.headerSet "X-Content-Type-Options" "nosniff"
  let w := w.WriteHeader code
  ((w.Write (msg.toList ++ ['\n'])).2)

/-- The observable outcome of serving one request through the adapter: the
final host writer and how often each log-sink method was invoked. -/
structure ServeOutcome where
  host : HostWriter
  unhandledLogs : Nat
  flushLogs : Nat
deriving Repr, DecidableEq

/-- Modelled from the spec: the current `ToStd` serve adapter, whose
implementation file is missing from the sources (only its tests and
documentation are present).  Per §4.6 it acquires a buffered writer with the
configured cap, runs the bare handler, and on a non-nil error resets the
buffer and then: if the error carries a framework status code anywhere in
its chain, writes a plain-text response with that status and the error's
formatted text; otherwise logs the error via `LogUnhandledServeError` and
writes a plain-text 500.  In all cases it then flushes the buffer once,
logging a flush failure via `LogImplicitFlushError`. -/
def ToStd (acts : List HAction) (res : Option GoErr) (bufLimit : Int)
    (host : HostWriter) : ServeOutcome :=
  let w := ResponseBuffer.newBufferResponse host bufLimit
  let w := runActions w acts
  let mapped : ResponseBuffer × Nat :=
    match res with
    | none => (w, 0)
    | some err =>
        let w := resetOrKeep w
        if GoErr.CodeOf err ≠ CodeUnknown then
          (httpErrorRB w (GoErr.errString err) (GoErr.CodeOf err), 0)
        else
          (httpErrorRB w (statusText 500) 500, 1)
  let flushed := mapped.1.FlushBuffer
  { host := flushed.1.resp
    unhandledLogs := mapped.2
    flushLogs := if flushed.2.isSome then 1 else 0 }

/-! ### Middleware composition (`src/middleware.go`)

`Chain` is generic over the handler type (`Handler[C]` in the source) and
`ChainStd` over `http.Handler`; both wrap from the last middleware inward, so
the first middleware supplied is outermost.  The downward Go loop
`for i := len(m)-1; i >= 0; i-- { wrapped = m[i](wrapped) }` starting from
`h` is the structural recursion below, and the `len(m) < 1` early return is
its base case returning `h` itself. -/

/-- `Chain(h, m...)` from `src/middleware.go`. -/
def Chain {H : Type} (h : H) : List (H → H) → H
  | [] => h
  | mw :: rest => mw (Chain h rest)

/-- `ChainStd(h, m...)` from `src/middleware.go`; textually the same loop as
`Chain` at the `http.Handler` type. -/
def ChainStd {H : Type} (h : H) : List (H → H) → H
  | [] => h
  | mw :: rest => mw (ChainStd h rest)

/-! ### The multiplexer registration state (`src/serve_mux.go`)

Only the registration-phase behaviour matters for the claims: the middleware
stacks, the captured flag flipped by `Handle`, and the routes handed to the
underlying `http.ServeMux`.  Handlers and middleware are abstract types. -/

/-- The panic message of `ensureNoUseAfterHandle`. -/
def useAfterHandleMsg : String := "bhttp: cannot call Use() or BUse() after calling Handle"

/-- The registration state of `ServeMux` (`src/serve_mux.go`): the standard
and buffered middleware stacks, the captured flag, and the accumulated
registrations at the underlying router.  `RH` is the host handler type
(`http.Handler`), `BM` the buffered middleware type. -/
structure ServeMux (BM RH : Type) where
  captured : Bool
  standard : List (RH → RH)
  buffered : List BM
  routes : List (Str × RH)

/-- A fresh mux (`NewServeMux`): no middleware, nothing captured, no routes. -/
def newServeMux {BM RH : Type} : ServeMux BM RH :=
  { captured := false, standard := [], buffered := [], routes := [] }

namespace ServeMux

/-- `ensureNoUseAfterHandle`: panics with a fixed message once any route has
been registered. -/
def ensureNoUseAfterHandle {BM RH : Type} (m : ServeMux BM RH) :
    Except String Unit :=
  if m.captured then .error useAfterHandleMsg else .ok ()

/-- `Use(mw...)`: appends standard middleware, panicking after any `Handle`. -/
def Use {BM RH : Type} (m : ServeMux BM RH) (mw : List (RH → RH)) :
    Except String (ServeMux BM RH) :=
  match m.ensureNoUseAfterHandle with
  | .error msg => .error msg
  | .ok _ => .ok { m with standard := m.standard ++ mw }

/-- `BUse(mw...)`: appends buffered middleware, panicking after any `Handle`. -/
def BUse {BM RH : Type} (m : ServeMux BM RH) (mw : List BM) :
    Except String (ServeMux BM RH) :=
  match m.ensureNoUseAfterHandle with
  | .error msg => .error msg
  | .ok _ => .ok { m with buffered := m.buffered ++ mw }

/-- `Handle(pattern, handler)`: marks the middleware stack as captured and
registers the handler, wrapped in the standard middleware chain, at the
underlying router (the optional route naming delegates to the reverser and
does not affect these claims). -/
def Handle {BM RH : Type} (m : ServeMux BM RH) (pattern : Str)
    (handler : RH) : ServeMux BM RH :=
  { m with
    captured := true
    routes := m.routes ++ [(pattern, ChainStd handler m.standard)] }

end ServeMux

/-! ### Prefix mounting

`Mount` / `MountBare` / `splitMethodPattern` / `stripPrefixBare` from the
mounting file of the repository.  A request is its URL (decoded path, raw
path and the remaining URL fields) plus the remaining request fields; the
`meta` fields stand for everything the shallow copy carries over
unchanged. -/

/-- A `url.URL` restricted to what mounting touches: the decoded path, the
raw (pre-decoding) path, and the remaining fields carried by the shallow
copy. -/
structure GoURL where
  path : Str
  rawPath : Str
  meta : Str
deriving Repr, DecidableEq

/-- An `http.Request` restricted to what mounting touches. -/
structure Request where
  url : GoURL
  meta : Str
deriving Repr, DecidableEq

/-- `splitMethodPattern(pattern)`: when the pattern holds a `/` past position
zero and the part before the last `/` holds a space, split the pattern after
that space into method and path; otherwise the whole pattern is the path. -/
def splitMethodPattern (pattern : Str) : Str × Str :=
  let idx := goLastIndex pattern '/'
  if 0 < idx then
    let pfx := pattern.take idx.toNat
    let spaceIdx := goIndex pfx ' '
    if 0 ≤ spaceIdx then
      (pattern.take (spaceIdx.toNat + 1), pattern.drop (spaceIdx.toNat + 1))
    else ([], pattern)
  else ([], pattern)

/-- The request view built by `stripPrefixBare`: a shallow copy of the
request with a shallow copy of its URL, whose decoded path has the mount
path trimmed off (`/` when the remainder is empty) and whose raw path gets
the same treatment when present. -/
def strippedRequest (pfx : Str) (r : Request) : Request :=
  let p := goTrimPfx r.url.path pfx
  let p := if p = [] then ['/'] else p
  let rp :=
    if r.url.rawPath ≠ [] then
      let x := goTrimPfx r.url.rawPath pfx
      if x = [] then ['/'] else x
    else []
  { r with url := { r.url with path := p, rawPath := rp } }

/-- `stripPrefixBare(pfx, handler)`: the bare handler that serves every
request through `handler` on the prefix-stripped shallow copy. -/
def stripPrefixBare {α : Type} (pfx : Str) (handler : Request → α) :
    Request → α :=
  fun r => handler (strippedRequest pfx r)

/-- `wrapBare(h, m...)`: the same downward wrapping loop as `Chain`, at the
bare-handler type, used by `MountBare` to apply the buffered middleware. -/
def wrapBare {H : Type} (h : H) : List (H → H) → H
  | [] => h
  | mw :: rest => mw (wrapBare h rest)

/-- `MountBare(pattern, handler)` with the mux's buffered middleware stack:
splits the method off the pattern, strips the path prefix in front of the
handler, wraps the result with the middleware, and registers it under both
the exact pattern (`method + path`) and the subtree pattern
(`method + path + "/"`).  The final `ToStd` conversion to a host handler is
the serve adapter modelled above and is orthogonal to the registration
patterns and the path rewriting. -/
def MountBare {α : Type} (pattern : Str) (handler : Request → α)
    (buffered : List ((Request → α) → (Request → α))) :
    List (Str × (Request → α)) :=
  let mp := splitMethodPattern pattern
  let stripped := stripPrefixBare mp.2 handler
  let wrapped := wrapBare stripped buffered
  let exact := mp.1 ++ mp.2
  let subtree := mp.1 ++ mp.2 ++ ['/']
  [(exact, wrapped), (subtree, wrapped)]

/-! ### Route patterns and the reverser

The `Reverser` source file is among the sources; the `internal/httppattern`
package it calls (`ParsePattern`, `Build`) is not, so those two functions are
modelled from the spec (§4.1, §4.2, §6). -/

/-- One segment of a parsed route pattern: literal text, a named placeholder,
or the terminal `\x7b$\x7d` anchor. -/
inductive Segment where
  | lit (s : Str)
  | param (name : Str)
  | anchor
deriving Repr, DecidableEq

/-- A parsed route pattern: an optional method token and the ordered
segments. -/
structure Pattern where
  method : Str
  segments : List Segment
deriving Repr, DecidableEq

/-- Parse failures of the route-pattern grammar. -/
inductive ParseErr where
  | empty
  | badSegment
  | dupName
  | anchorNotLast
deriving Repr, DecidableEq

/-- Failures of the reverser: duplicate registration, a parse failure during
registration, an unknown route name, or too few values for the pattern's
placeholders. -/
inductive RevErr where
  | duplicateName (name : Str)
  | parseFailed (e : ParseErr)
  | unknownName (name : Str)
  | insufficientArguments
deriving Repr, DecidableEq

/-- Split a string on every occurrence of a separator character. -/
def splitOnChar (c : Char) : Str → List Str
  | [] => [[]]
  | a :: rest =>
      let r := splitOnChar c rest
      if a = c then [] :: r
      else
        match r with
        | [] => [[a]]
        | s :: tail => (a :: s) :: tail

/-- Placeholder identifiers: a letter or underscore followed by letters,
digits or underscores. -/
def isIdent : Str → Bool
  | [] => false
  | a :: rest =>
      (a.isAlpha || a = '_') && rest.all (fun ch => ch.isAlphanum || ch = '_')

/-- Characters allowed in a literal path segment. -/
def isLitChar (ch : Char) : Bool :=
  ch.isAlphanum || ch = '.' || ch = '_' || ch = '~' || ch = '%' || ch = '-'

/-- Parse one path segment: `\x7bNAME\x7d` placeholders, the `\x7b$\x7d`
anchor, or literal text. -/
def parseSegment (seg : Str) : Except ParseErr Segment :=
  match seg with
  | '{' :: rest =>
      match rest.getLast? with
      | some '}' =>
          let inner := rest.dropLast
          if inner = ['$'] then .ok .anchor
          else if isIdent inner then .ok (.param inner)
          else .error .badSegment
      | _ => .error .badSegment
  | _ =>
      if seg ≠ [] ∧ seg.all isLitChar then .ok (.lit seg)
      else .error .badSegment

/-- The placeholder names of a segment list, in order of appearance. -/
def paramNames : List Segment → List Str
  | [] => []
  | .param n :: rest => n :: paramNames rest
  | _ :: rest => paramNames rest

/-- Modelled from the spec: `httppattern.ParsePattern`, whose source package
(`internal/httppattern`) is not among the sources.  Per §4.1 and §6 the
string is `[METHOD ]SEGMENT(/SEGMENT)*`; parsing fails on the empty string,
on a segment with invalid characters, on duplicate placeholder names, and on
an anchor that is not last. -/
def parsePattern (s : Str) : Except ParseErr Pattern :=
  if s = [] then .error .empty
  else
    let i := goIndex s ' '
    let method := if 0 ≤ i then s.take i.toNat else []
    let pathStr := if 0 ≤ i then s.drop (i.toNat + 1) else s
    let rawSegs :=
      match splitOnChar '/' pathStr with
      | [] :: rest => rest
      | l => l
    match rawSegs.mapM parseSegment with
    | .error e => .error e
    | .ok segs =>
        if segs.dropLast.any (fun sg => sg = Segment.anchor) then .error .anchorNotLast
        else if (paramNames segs).Nodup then .ok { method := method, segments := segs }
        else .error .dupName

/-- Modelled from the spec: `httppattern.Build`, whose source package is not
among the sources.  Per §4.2 it walks the segments, emitting literals
verbatim, consuming one value per placeholder in order (failing with the
insufficient-arguments error when the values run out) and emitting `/` for
the terminal anchor. -/
def buildSegs : List Segment → List Str → Str → Except RevErr Str
  | [], _, acc => .ok acc
  | .lit s :: rest, vals, acc => buildSegs rest vals (acc ++ '/' :: s)
  | .param _ :: rest, vals, acc =>
      match vals with
      | [] => .error .insufficientArguments
      | v :: vs => buildSegs rest vs (acc ++ '/' :: v)
  | .anchor :: rest, vals, acc => buildSegs rest vals (acc ++ ['/'])

/-- Modelled from the spec: `httppattern.Build` entry point. -/
def build (p : Pattern) (vals : List Str) : Except RevErr Str :=
  buildSegs p.segments vals []

/-- `Reverser` from the reverser source file: the name-to-pattern map. -/
structure Reverser where
  pats : List (Str × Pattern)
deriving Repr, DecidableEq

namespace Reverser

/-- `NewReverser()`: the empty registry. -/
def NewReverser : Reverser := ⟨[]⟩

/-- Map lookup `r.pats[name]`. -/
def lookupPat (r : Reverser) (name : Str) : Option Pattern :=
  (r.pats.find? (fun e => e.1 = name)).map (fun e => e.2)

/-- `NamedPattern(name, str)`: fails (without touching the map) when the name
already exists; then parses the pattern string, inserting it on success.
Returns the pattern string, the updated registry and the error, mirroring
the `(string, error)` return plus the receiver mutation. -/
def NamedPattern (r : Reverser) (name str : Str) :
    Str × Reverser × Option RevErr :=
  if (r.lookupPat name).isSome then (str, r, some (.duplicateName name))
  else
    match parsePattern str with
    | .error e => (str, r, some (.parseFailed e))
    | .ok pat => (str, ⟨r.pats ++ [(name, pat)]⟩, none)

/-- `Reverse(name, vals...)`: unknown names fail; otherwise the pattern is
built with the values. -/
def Reverse (r : Reverser) (name : Str) (vals : List Str) : Except RevErr Str :=
  match r.lookupPat name with
  | none => .error (.unknownName name)
  | some pat => build pat vals

end Reverser

/-- The number of placeholder segments of a segment list. -/
def numParams : List Segment → Nat
  | [] => 0
  | .param _ :: rest => numParams rest + 1
  | _ :: rest => numParams rest

/-- Two buffered-writer states that agree on everything the host has
irrevocably observed plus the flags and cap: the handler-phase operations
relate every state to its successor by this relation. -/
def sameCore (w w' : ResponseBuffer) : Prop :=
  w'.resp.statusWrites = w.resp.statusWrites ∧
  w'.resp.bodyChunks = w.resp.bodyChunks ∧
  w'.resp.failWrites = w.resp.failWrites ∧
  w'.bodyFlushed = w.bodyFlushed ∧
  w'.limit = w.limit

/-- A fresh host writer, as handed to the adapter at request start. -/
def hostEmpty : HostWriter :=
  { headers := [], statusWrites := [], bodyChunks := [], failWrites := false }

/-- A host writer whose `Write` fails, as in the flush-error tests. -/
def hostFailing : HostWriter :=
  { headers := [], statusWrites := [], bodyChunks := [], failWrites := true }

/-- A freshly acquired unlimited buffer over a fresh host. -/
def rbFresh : ResponseBuffer := ResponseBuffer.newBufferResponse hostEmpty (-1)

/-- A buffer whose body has already been flushed. -/
def rbFlushed : ResponseBuffer := (rbFresh.FlushBuffer).1

/-- A buffer latched by a successful one-byte write. -/
def rbLatched : ResponseBuffer := (rbFresh.Write ['a']).2

/-- A buffer with one pending byte over a failing host writer. -/
def rbFailPending : ResponseBuffer :=
  ((ResponseBuffer.newBufferResponse hostFailing (-1)).Write ['a']).2

/-- The route name `blog` used by the reverser examples. -/
def blogName : Str := ['b', 'l', 'o', 'g']

/-- The pattern string `/blog/\x7bid\x7d/\x7b$\x7d` of the reverser tests. -/
def blogPatternStr : Str :=
  ['/', 'b', 'l', 'o', 'g', '/', '{', 'i', 'd', '}', '/', '{', '$', '}']

/-- The parse of `blogPatternStr`. -/
def blogPattern : Pattern :=
  { method := []
    segments := [.lit ['b', 'l', 'o', 'g'], .param ['i', 'd'], .anchor] }

/-- A reverser holding the blog pattern under the blog name. -/
def revSample : Reverser :=
  (Reverser.NewReverser.NamedPattern blogName blogPatternStr).2.1

end Bhttp

namespace Bhttp

/-! ## Helper lemmas -/

theorem sameCore_refl (w : ResponseBuffer) : sameCore w w :=
  ⟨rfl, rfl, rfl, rfl, rfl⟩

theorem sameCore_trans {a b c : ResponseBuffer} (h1 : sameCore a b)
    (h2 : sameCore b c) : sameCore a c := by
  obtain ⟨x1, x2, x3, x4, x5⟩ := h1
  obtain ⟨y1, y2, y3, y4, y5⟩ := h2
  exact ⟨y1.trans x1, y2.trans x2, y3.trans x3, y4.trans x4, y5.trans x5⟩

theorem write_sameCore (w : ResponseBuffer) (p : Str) :
    sameCore w (w.Write p).2 := by
  unfold ResponseBuffer.Write
  split
  · exact sameCore_refl w
  · exact ⟨rfl, rfl, rfl, rfl, rfl⟩

theorem writeHeader_sameCore (w : ResponseBuffer) (code : Nat) :
    sameCore w (w.WriteHeader code) := by
  unfold ResponseBuffer.WriteHeader
  split
  · exact sameCore_refl w
  · exact ⟨rfl, rfl, rfl, rfl, rfl⟩

theorem headerSet_sameCore (w : ResponseBuffer) (k v : String) :
    sameCore w (w.headerSet k v) := by
  unfold ResponseBuffer.headerSet
  split
  · exact ⟨rfl, rfl, rfl, rfl, rfl⟩
  · exact ⟨rfl, rfl, rfl, rfl, rfl⟩

theorem resetOrKeep_sameCore (w : ResponseBuffer) :
    sameCore w (resetOrKeep w) := by
  cases hb : w.bodyFlushed
  · simp [resetOrKeep, ResponseBuffer.Reset, hb, sameCore]
  · simp [resetOrKeep, ResponseBuffer.Reset, hb, sameCore]

theorem runAction_sameCore (w : ResponseBuffer) (a : HAction) :
    sameCore w (runAction w a) := by
  cases a with
  | write data => exact write_sameCore w data
  | writeHeader code => exact writeHeader_sameCore w code
  | setHeader k v => exact headerSet_sameCore w k v
  | reset => exact resetOrKeep_sameCore w

theorem runActions_sameCore (acts : List HAction) :
    ∀ w : ResponseBuffer, sameCore w (runActions w acts) := by
  induction acts with
  | nil => intro w; exact sameCore_refl w
  | cons a rest ih =>
      intro w
      exact sameCore_trans (runAction_sameCore w a) (ih (runAction w a))

theorem resetOrKeep_of_not_flushed (w : ResponseBuffer)
    (h : w.bodyFlushed = false) :
    resetOrKeep w =
      { w with
        resp := { w.resp with headers := [] }
        headerFlushed := false
        status := 200
        buf := [] } := by
  unfold resetOrKeep ResponseBuffer.Reset
  simp [h]

theorem httpErrorRB_unlatched (w : ResponseBuffer) (msg : String) (code : Nat)
    (hh : w.headerFlushed = false) (hl : w.limit < 0) :
    (httpErrorRB w msg code).buf = w.buf ++ (msg.toList ++ ['\n']) ∧
    (httpErrorRB w msg code).status = code ∧
    sameCore w (httpErrorRB w msg code) := by
  unfold httpErrorRB
  unfold ResponseBuffer.headerSet
  simp only [hh, Bool.false_eq_true, if_false]
  unfold ResponseBuffer.WriteHeader
  simp only [hh, Bool.false_eq_true, if_false]
  unfold ResponseBuffer.Write ResponseBuffer.markHeaderAsFlushed
  have hcond : ¬ (0 ≤ w.limit ∧
      w.limit < ((w.buf.length : Int) + ((msg.toList ++ ['\n']).length : Int))) := by
    intro hc
    omega
  simp only []
  refine ⟨?_, ?_, ?_⟩
  · split
    · omega
    · rfl
  · split
    · omega
    · rfl
  · split
    · omega
    · exact ⟨rfl, rfl, rfl, rfl, rfl⟩

theorem flushBuffer_empty (w : ResponseBuffer) (hb : w.buf = []) :
    (w.FlushBuffer).2 = none ∧
    (w.FlushBuffer).1.resp.statusWrites = w.resp.statusWrites ++ [w.status] ∧
    (w.FlushBuffer).1.resp.bodyChunks = w.resp.bodyChunks ∧
    (w.FlushBuffer).1.bodyFlushed = true := by
  unfold ResponseBuffer.FlushBuffer ResponseBuffer.markHeaderAsFlushed
  simp [hb]

theorem flushBuffer_ok (w : ResponseBuffer) (hb : w.buf ≠ [])
    (hf : w.resp.failWrites = false) :
    (w.FlushBuffer).2 = none ∧
    (w.FlushBuffer).1.resp.statusWrites = w.resp.statusWrites ++ [w.status] ∧
    (w.FlushBuffer).1.resp.bodyChunks = w.resp.bodyChunks ++ [w.buf] ∧
    (w.FlushBuffer).1.bodyFlushed = true := by
  unfold ResponseBuffer.FlushBuffer ResponseBuffer.markHeaderAsFlushed
  simp [hb, hf]

theorem flushBuffer_fail (w : ResponseBuffer) (hb : w.buf ≠ [])
    (hf : w.resp.failWrites = true) :
    (w.FlushBuffer).2 = some .underlyingWrite ∧
    (w.FlushBuffer).1.resp.statusWrites = w.resp.statusWrites ++ [w.status] ∧
    (w.FlushBuffer).1.resp.bodyChunks = w.resp.bodyChunks ∧
    (w.FlushBuffer).1.bodyFlushed = w.bodyFlushed ∧
    (w.FlushBuffer).1.buf = w.buf := by
  unfold ResponseBuffer.FlushBuffer ResponseBuffer.markHeaderAsFlushed
  simp [hb, hf]

/-! ## The claims -/

/-- C3: for every `ResponseBuffer` and every write, a write that would push
the buffer past a non-negative cap is rejected with the buffer-full error
and leaves the state (in particular the buffer contents) unchanged; a write
that brings the total to exactly the cap succeeds and appends; with cap 0
every non-empty write is rejected; with a negative cap (the unlimited
sentinel) no write is ever rejected for size. -/
theorem write_cap_boundaries (w : ResponseBuffer) (p : Str) :
    (0 ≤ w.limit → w.limit < ((w.buf.length : Int) + (p.length : Int)) →
        w.Write p = ((0, some BufErr.bufferFull), w)) ∧
    (0 ≤ w.limit → ((w.buf.length : Int) + (p.length : Int)) = w.limit →
        (w.Write p).1 = (p.length, none) ∧ (w.Write p).2.buf = w.buf ++ p) ∧
    (w.limit = 0 → p ≠ [] → w.Write p = ((0, some BufErr.bufferFull), w)) ∧
    (w.limit < 0 →
        (w.Write p).1 = (p.length, none) ∧ (w.Write p).2.buf = w.buf ++ p) := by
  refine ⟨?_, ?_, ?_, ?_⟩
  · intro h1 h2
    unfold ResponseBuffer.Write
    rw [if_pos]
    exact ⟨h1, by omega⟩
  · intro h1 h2
    unfold ResponseBuffer.Write
    rw [if_neg]
    · exact ⟨rfl, rfl⟩
    · rintro ⟨-, hlt⟩
      omega
  · intro h0 hp
    unfold ResponseBuffer.Write
    rw [if_pos]
    refine ⟨by omega, ?_⟩
    have : 0 < p.length := List.length_pos.mpr hp
    omega
  · intro hneg
    unfold ResponseBuffer.Write
    rw [if_neg]
    · exact ⟨rfl, rfl⟩
    · rintro ⟨hge, -⟩
      omega

/-- Witness for C3: with cap 0 a one-byte write is rejected atomically. -/
theorem write_cap_boundaries_witness :
    ((ResponseBuffer.newBufferResponse hostEmpty 0).limit = 0 ∧
      (['x'] : Str) ≠ []) ∧
    (ResponseBuffer.newBufferResponse hostEmpty 0).Write ['x'] =
      ((0, some BufErr.bufferFull), ResponseBuffer.newBufferResponse hostEmpty 0) :=
  ⟨⟨rfl, by decide⟩,
    (write_cap_boundaries (ResponseBuffer.newBufferResponse hostEmpty 0)
      ['x']).2.2.1 rfl (by decide)⟩

/-- C4: for every `ResponseBuffer`, `Reset` after the body has been flushed
fails fast with the programming-error panic (modelled as `none`); otherwise
it empties the internal buffer, deletes all pending headers on the
underlying writer's header map, restores status 200 and un-latches the
headers. -/
theorem reset_spec (w : ResponseBuffer) :
    (w.bodyFlushed = true → w.Reset = none) ∧
    (w.bodyFlushed = false →
        w.Reset = some
          { w with
            resp := { w.resp with headers := [] }
            headerFlushed := false
            status := 200
            buf := [] }) := by
  constructor
  · intro h
    unfold ResponseBuffer.Reset
    simp [h]
  · intro h
    unfold ResponseBuffer.Reset
    simp [h]

/-- Witness for C4: a flushed buffer panics on `Reset`; a fresh one resets
to the documented state. -/
theorem reset_spec_witness :
    (rbFlushed.bodyFlushed = true ∧ rbFlushed.Reset = none) ∧
    (rbFresh.bodyFlushed = false ∧
      rbFresh.Reset = some { rbFresh with resp := { rbFresh.resp with headers := [] }, headerFlushed := false, status := 200, buf := [] }) :=
  ⟨⟨by decide, (reset_spec rbFlushed).1 (by decide)⟩,
    ⟨by decide, (reset_spec rbFresh).2 (by decide)⟩⟩

/-- C8: a successful `Write` (and any `WriteHeader`) leaves the buffer in the
headers-latched state; once latched, `WriteHeader` is a no-op on the whole
state (in particular the recorded status), `Header()` yields the side map,
and header mutations touch neither the underlying writer nor anything a
later `FlushBuffer` sends (flushing never copies header maps). -/
theorem latched_header_behaviour (w : ResponseBuffer) (p : Str) (code : Nat)
    (k v : String) :
    ((w.Write p).1.2 = none → (w.Write p).2.headerFlushed = true) ∧
    ((w.WriteHeader code).headerFlushed = true) ∧
    (w.headerFlushed = true → w.WriteHeader code = w) ∧
    (w.headerFlushed = true → (w.headerSet k v).resp = w.resp) ∧
    (w.headerFlushed = true → (w.Header).1 = w.unflushableHeader.getD []) ∧
    ((w.FlushBuffer).1.resp.headers = w.resp.headers) := by
  refine ⟨?_, ?_, ?_, ?_, ?_, ?_⟩
  · intro h
    unfold ResponseBuffer.Write at h ⊢
    by_cases hc : 0 ≤ w.limit ∧ w.limit < (w.buf.length : Int) + (p.length : Int)
    · rw [if_pos hc] at h
      simp at h
    · rw [if_neg hc] at h ⊢
      rfl
  · unfold ResponseBuffer.WriteHeader
    by_cases hh : w.headerFlushed = true
    · rw [if_pos hh]
      exact hh
    · rw [if_neg hh]
      rfl
  · intro hh
    unfold ResponseBuffer.WriteHeader
    rw [if_pos hh]
  · intro hh
    unfold ResponseBuffer.headerSet
    rw [if_pos hh]
  · intro hh
    unfold ResponseBuffer.Header
    rw [if_pos hh]
    cases w.unflushableHeader <;> rfl
  · unfold ResponseBuffer.FlushBuffer ResponseBuffer.markHeaderAsFlushed
    by_cases hb : w.buf = [] <;> by_cases hf : w.resp.failWrites <;>
      simp [hb, hf]

/-- Witness for C8: a latched single-write state keeps its status across
`WriteHeader`, and its header mutations stay on the side map. -/
theorem latched_header_behaviour_witness :
    rbLatched.headerFlushed = true ∧
    rbLatched.WriteHeader 404 = rbLatched ∧
    (rbLatched.headerSet "X-Late" "v").resp = rbLatched.resp :=
  ⟨by decide,
    (latched_header_behaviour rbLatched ['a'] 404 "X-Late" "v").2.2.1 (by decide),
    (latched_header_behaviour rbLatched ['a'] 404 "X-Late" "v").2.2.2.1 (by decide)⟩

/-- C10: the body-flushed flag is set only by a fully successful
`FlushBuffer`: when the underlying write fails, `FlushBuffer` returns the
error with the flag unchanged (so a subsequent `Reset` does not panic when
the flag was unset), and after a successful `FlushBuffer` a `Reset`
panics. -/
theorem flush_flag_only_on_success (w : ResponseBuffer) :
    (w.buf ≠ [] → w.resp.failWrites = true →
        (w.FlushBuffer).2 = some BufErr.underlyingWrite ∧
        (w.FlushBuffer).1.bodyFlushed = w.bodyFlushed ∧
        (w.bodyFlushed = false → ((w.FlushBuffer).1.Reset).isSome = true)) ∧
    ((w.FlushBuffer).2 = none →
        (w.FlushBuffer).1.bodyFlushed = true ∧ (w.FlushBuffer).1.Reset = none) := by
  constructor
  · intro hb hf
    obtain ⟨he, -, -, hflag, -⟩ := flushBuffer_fail w hb hf
    refine ⟨he, hflag, ?_⟩
    intro h0
    unfold ResponseBuffer.Reset
    simp [hflag, h0]
  · intro hnone
    by_cases hb : w.buf = []
    · obtain ⟨-, -, -, hflag⟩ := flushBuffer_empty w hb
      refine ⟨hflag, ?_⟩
      unfold ResponseBuffer.Reset
      simp [hflag]
    · cases hf : w.resp.failWrites
      · obtain ⟨-, -, -, hflag⟩ := flushBuffer_ok w hb hf
        refine ⟨hflag, ?_⟩
        unfold ResponseBuffer.Reset
        simp [hflag]
      · obtain ⟨he, -⟩ := flushBuffer_fail w hb hf
        rw [hnone] at he
        exact absurd he (by simp)

/-- Witness for C10: a pending one-byte body against a failing host writer
flushes with an error, leaves the flag unset and still allows `Reset`. -/
theorem flush_flag_only_on_success_witness :
    (rbFailPending.buf ≠ [] ∧ rbFailPending.resp.failWrites = true) ∧
    ((rbFailPending.FlushBuffer).2 = some BufErr.underlyingWrite ∧
      (rbFailPending.FlushBuffer).1.bodyFlushed = rbFailPending.bodyFlushed ∧
      (rbFailPending.bodyFlushed = false →
        ((rbFailPending.FlushBuffer).1.Reset).isSome = true)) :=
  ⟨⟨by decide, by decide⟩,
    (flush_flag_only_on_success rbFailPending).1 (by decide) (by decide)⟩

/-- The method and path parts of `splitMethodPattern` always reassemble the
original pattern, so the exact registration pattern of `MountBare` is the
mount pattern itself. -/
theorem splitMethodPattern_append (pattern : Str) :
    (splitMethodPattern pattern).1 ++ (splitMethodPattern pattern).2 = pattern := by
  unfold splitMethodPattern
  dsimp only
  split_ifs <;> simp

/-- C5: mounting a bare handler at a pattern registers the adapted handler
under both the exact pattern and the subtree pattern (the pattern plus a
trailing slash), and the mounted handler is invoked with a shallow-copied
request whose decoded path is the original path with the mount path removed
(`/` when the remainder is empty), with the same removal applied to the raw
path when present and every other field carried over unchanged. -/
theorem mount_registration_and_strip {α : Type} (pattern : Str)
    (handler : Request → α) (r : Request) :
    MountBare pattern handler [] =
      [(pattern, stripPrefixBare (splitMethodPattern pattern).2 handler),
       (pattern ++ ['/'], stripPrefixBare (splitMethodPattern pattern).2 handler)] ∧
    stripPrefixBare (splitMethodPattern pattern).2 handler r =
      handler (strippedRequest (splitMethodPattern pattern).2 r) ∧
    (strippedRequest (splitMethodPattern pattern).2 r).url.path =
      (if goTrimPfx r.url.path (splitMethodPattern pattern).2 = [] then ['/']
       else goTrimPfx r.url.path (splitMethodPattern pattern).2) ∧
    (strippedRequest (splitMethodPattern pattern).2 r).url.rawPath =
      (if r.url.rawPath ≠ [] then
        (if goTrimPfx r.url.rawPath (splitMethodPattern pattern).2 = [] then ['/']
         else goTrimPfx r.url.rawPath (splitMethodPattern pattern).2)
       else []) ∧
    (strippedRequest (splitMethodPattern pattern).2 r).url.meta = r.url.meta ∧
    (strippedRequest (splitMethodPattern pattern).2 r).meta = r.meta := by
  refine ⟨?_, rfl, rfl, rfl, rfl, rfl⟩
  unfold MountBare wrapBare
  dsimp only
  rw [splitMethodPattern_append]

/-- List `foldr` of function application: the chained form
`m1 (m2 (... mk h ...))`. -/
theorem chain_eq_foldr {H : Type} (h : H) (ms : List (H → H)) :
    Chain h ms = ms.foldr (fun f acc => f acc) h := by
  induction ms with
  | nil => rfl
  | cons mw rest ih => simp [Chain, ih]

/-- `ChainStd` agrees with the same fold. -/
theorem chainStd_eq_foldr {H : Type} (h : H) (ms : List (H → H)) :
    ChainStd h ms = ms.foldr (fun f acc => f acc) h := by
  induction ms with
  | nil => rfl
  | cons mw rest ih => simp [ChainStd, ih]

/-- C6: `Chain` (and `ChainStd`) compose middleware with the first-supplied
middleware outermost — `Chain(h, m1, ..., mk) = m1(m2(... mk(h) ...))`, the
fold of function application — and the empty chain returns the handler
itself. -/
theorem chain_composition {H : Type} (h : H) (ms : List (H → H)) (mw : H → H) :
    Chain h (mw :: ms) = mw (Chain h ms) ∧
    Chain h ms = ms.foldr (fun f acc => f acc) h ∧
    Chain h [] = h ∧
    ChainStd h (mw :: ms) = mw (ChainStd h ms) ∧
    ChainStd h ms = ms.foldr (fun f acc => f acc) h ∧
    ChainStd h [] = h :=
  ⟨rfl, chain_eq_foldr h ms, rfl, rfl, chainStd_eq_foldr h ms, rfl⟩

/-- Building a pattern with fewer values than placeholders fails with the
insufficient-arguments error, whatever has been emitted so far. -/
theorem buildSegs_insufficient (segs : List Segment) :
    ∀ (vals : List Str) (acc : Str), vals.length < numParams segs →
      buildSegs segs vals acc = .error RevErr.insufficientArguments := by
  induction segs with
  | nil =>
      intro vals acc h
      simp [numParams] at h
  | cons sg rest ih =>
      intro vals acc h
      cases sg with
      | lit s =>
          simp only [buildSegs]
          exact ih vals _ (by simpa [numParams] using h)
      | param n =>
          cases vals with
          | nil => rfl
          | cons v vs =>
              simp only [buildSegs]
              refine ih vs _ ?_
              simp only [numParams, List.length_cons] at h
              omega
      | anchor =>
          simp only [buildSegs]
          exact ih vals _ (by simpa [numParams] using h)

/-- C7: registering a pattern under a name that is already registered fails
with the duplicate-name error and leaves the registry unchanged (so the
existing entry is not replaced); `Reverse` fails with the unknown-name error
for unregistered names, and with the insufficient-arguments error when the
pattern's placeholders outnumber the supplied values. -/
theorem reverser_error_contract (r : Reverser) (name str : Str)
    (vals : List Str) (pat : Pattern) :
    (r.lookupPat name = some pat →
        r.NamedPattern name str = (str, r, some (RevErr.duplicateName name))) ∧
    (r.lookupPat name = none →
        r.Reverse name vals = .error (RevErr.unknownName name)) ∧
    (r.lookupPat name = some pat → vals.length < numParams pat.segments →
        r.Reverse name vals = .error RevErr.insufficientArguments) := by
  refine ⟨?_, ?_, ?_⟩
  · intro h
    unfold Reverser.NamedPattern
    rw [if_pos]
    rw [h]
    rfl
  · intro h
    unfold Reverser.Reverse
    rw [h]
  · intro h hcount
    unfold Reverser.Reverse
    rw [h]
    exact buildSegs_insufficient pat.segments vals [] hcount

/-- Witness for C7: the sample registry rejects re-registration of the blog
name, rejects reversing an unknown name, and rejects reversing the blog
pattern with no values. -/
theorem reverser_error_contract_witness :
    (revSample.lookupPat blogName = some blogPattern ∧
      revSample.NamedPattern blogName blogPatternStr =
        (blogPatternStr, revSample, some (RevErr.duplicateName blogName))) ∧
    (revSample.lookupPat ['b', 'o', 'g', 'u', 's'] = none ∧
      revSample.Reverse ['b', 'o', 'g', 'u', 's'] [] =
        .error (RevErr.unknownName ['b', 'o', 'g', 'u', 's'])) ∧
    (List.length ([] : List Str) < numParams blogPattern.segments ∧
      revSample.Reverse blogName [] = .error RevErr.insufficientArguments) :=
  ⟨⟨by decide,
      (reverser_error_contract revSample blogName blogPatternStr [] blogPattern).1
        (by decide)⟩,
    ⟨by decide,
      (reverser_error_contract revSample ['b', 'o', 'g', 'u', 's'] [] []
        blogPattern).2.1 (by decide)⟩,
    ⟨by decide,
      (reverser_error_contract revSample blogName [] [] blogPattern).2.2
        (by decide) (by decide)⟩⟩

/-- C9: registering middleware after any route registration fails fast with
the fixed panic message (for both `Use` and `BUse`), while on a mux with
nothing captured — as a fresh mux is — it appends the middleware and
succeeds. -/
theorem use_after_handle_contract {BM RH : Type} (m : ServeMux BM RH)
    (pattern : Str) (h : RH) (mw : List (RH → RH)) (bmw : List BM) :
    ((m.Handle pattern h).Use mw = .error useAfterHandleMsg) ∧
    ((m.Handle pattern h).BUse bmw = .error useAfterHandleMsg) ∧
    (m.captured = false →
        m.Use mw = .ok { m with standard := m.standard ++ mw } ∧
        m.BUse bmw = .ok { m with buffered := m.buffered ++ bmw }) ∧
    ((newServeMux : ServeMux BM RH).captured = false) := by
  refine ⟨rfl, rfl, ?_, rfl⟩
  intro hc
  constructor
  · unfold ServeMux.Use ServeMux.ensureNoUseAfterHandle
    rw [if_neg (by simp [hc])]
  · unfold ServeMux.BUse ServeMux.ensureNoUseAfterHandle
    rw [if_neg (by simp [hc])]

/-- Witness for C9: on a fresh mux over unit handlers, `Use` succeeds before
any route and panics after one. -/
theorem use_after_handle_contract_witness :
    ((newServeMux : ServeMux Unit Unit).captured = false ∧
      (newServeMux : ServeMux Unit Unit).Use [fun x => x] =
        .ok { (newServeMux : ServeMux Unit Unit) with standard := [] ++ [fun x => x] }) ∧
    (((newServeMux : ServeMux Unit Unit).Handle ['/'] ()).Use [fun x => x] =
      .error useAfterHandleMsg) :=
  ⟨⟨rfl,
      ((use_after_handle_contract (newServeMux : ServeMux Unit Unit) ['/'] ()
        [fun x => x] []).2.2.1 rfl).1⟩,
    (use_after_handle_contract (newServeMux : ServeMux Unit Unit) ['/'] ()
      [fun x => x] []).1⟩

/-- The error-writing helper relates states by `sameCore` unconditionally:
it only touches header maps, the latch, the status and the buffer. -/
theorem httpErrorRB_sameCore (w : ResponseBuffer) (msg : String) (code : Nat) :
    sameCore w (httpErrorRB w msg code) := by
  unfold httpErrorRB
  exact sameCore_trans (headerSet_sameCore _ _ _)
    (sameCore_trans (headerSet_sameCore _ _ _)
      (sameCore_trans (writeHeader_sameCore _ _) (write_sameCore _ _)))

/-- Writing the error text into a freshly reset unlimited buffer and flushing
it delivers exactly the error status and the text plus newline to the
host. -/
theorem httpError_flush (w : ResponseBuffer) (msg : String) (code : Nat)
    (hh : w.headerFlushed = false) (hl : w.limit < 0) (hb : w.buf = [])
    (hf : w.resp.failWrites = false) :
    ((httpErrorRB w msg code).FlushBuffer).1.resp.statusWrites =
      w.resp.statusWrites ++ [code] ∧
    ((httpErrorRB w msg code).FlushBuffer).1.resp.bodyChunks =
      w.resp.bodyChunks ++ [msg.toList ++ ['\n']] ∧
    ((httpErrorRB w msg code).FlushBuffer).2 = none := by
  obtain ⟨e1, e2, c1, c2, c3, -, -⟩ := httpErrorRB_unlatched w msg code hh hl
  have hbuf : (httpErrorRB w msg code).buf ≠ [] := by
    rw [e1, hb]
    simp
  have hfail : (httpErrorRB w msg code).resp.failWrites = false := c3.trans hf
  obtain ⟨f1, f2, f3, -⟩ := flushBuffer_ok _ hbuf hfail
  refine ⟨?_, ?_, f1⟩
  · rw [f2, e2, c1]
  · rw [f3, c2, e1, hb]
    simp

/-- Flushing a buffer whose host has seen nothing yet delivers exactly one
status write and at most one body chunk. -/
theorem flush_counts (w : ResponseBuffer) (hs : w.resp.statusWrites = [])
    (hb : w.resp.bodyChunks = []) (hf : w.resp.failWrites = false) :
    (w.FlushBuffer).1.resp.statusWrites.length = 1 ∧
    (w.FlushBuffer).1.resp.bodyChunks.length ≤ 1 := by
  by_cases hbuf : w.buf = []
  · obtain ⟨-, f2, f3, -⟩ := flushBuffer_empty w hbuf
    constructor
    · rw [f2, hs]
      rfl
    · rw [f3, hb]
      simp
  · obtain ⟨-, f2, f3, -⟩ := flushBuffer_ok w hbuf hf
    constructor
    · rw [f2, hs]
      rfl
    · rw [f3, hb]
      simp

/-- C1: when the bare handler returns an error carrying a framework status
code anywhere in its wrap chain, the serve adapter sends the client exactly
that status with the error's formatted text as a plain-text body and never
invokes the unhandled-error log sink; when the error carries no framework
code, the unhandled-error sink is invoked once and the client receives a
plain-text 500 with the canonical status text. -/
theorem toStd_error_mapping (acts : List HAction) (err : GoErr) (limit : Int)
    (host : HostWriter) (hl : limit < 0) (hs : host.statusWrites = [])
    (hb : host.bodyChunks = []) (hf : host.failWrites = false) :
    (GoErr.CodeOf err ≠ CodeUnknown →
        (ToStd acts (some err) limit host).host.statusWrites = [GoErr.CodeOf err] ∧
        (ToStd acts (some err) limit host).host.bodyChunks =
          [(GoErr.errString err).toList ++ ['\n']] ∧
        (ToStd acts (some err) limit host).unhandledLogs = 0) ∧
    (GoErr.CodeOf err = CodeUnknown →
        (ToStd acts (some err) limit host).unhandledLogs = 1 ∧
        (ToStd acts (some err) limit host).host.statusWrites = [500] ∧
        (ToStd acts (some err) limit host).host.bodyChunks =
          [(statusText 500).toList ++ ['\n']]) := by
  obtain ⟨a1, a2, a3, a4, a5⟩ :=
    runActions_sameCore acts (ResponseBuffer.newBufferResponse host limit)
  have hbf : (runActions (ResponseBuffer.newBufferResponse host limit)
      acts).bodyFlushed = false := a4
  have hRdef := resetOrKeep_of_not_flushed _ hbf
  have hRh : (resetOrKeep (runActions (ResponseBuffer.newBufferResponse host limit)
      acts)).headerFlushed = false := by rw [hRdef]
  have hRl : (resetOrKeep (runActions (ResponseBuffer.newBufferResponse host limit)
      acts)).limit < 0 := by
    rw [hRdef]
    show (runActions (ResponseBuffer.newBufferResponse host limit) acts).limit < 0
    rw [a5]
    exact hl
  have hRbuf : (resetOrKeep (runActions (ResponseBuffer.newBufferResponse host limit)
      acts)).buf = [] := by rw [hRdef]
  have hRf : (resetOrKeep (runActions (ResponseBuffer.newBufferResponse host limit)
      acts)).resp.failWrites = false := by
    rw [hRdef]
    show (runActions (ResponseBuffer.newBufferResponse host limit)
      acts).resp.failWrites = false
    exact a3.trans hf
  have hRs : (resetOrKeep (runActions (ResponseBuffer.newBufferResponse host limit)
      acts)).resp.statusWrites = [] := by
    rw [hRdef]
    show (runActions (ResponseBuffer.newBufferResponse host limit)
      acts).resp.statusWrites = []
    exact a1.trans hs
  have hRb : (resetOrKeep (runActions (ResponseBuffer.newBufferResponse host limit)
      acts)).resp.bodyChunks = [] := by
    rw [hRdef]
    show (runActions (ResponseBuffer.newBufferResponse host limit)
      acts).resp.bodyChunks = []
    exact a2.trans hb
  constructor
  · intro hcode
    obtain ⟨g1, g2, -⟩ := httpError_flush _ (GoErr.errString err) (GoErr.CodeOf err)
      hRh hRl hRbuf hRf
    unfold ToStd
    dsimp only
    rw [if_pos hcode]
    dsimp only
    rw [g1, g2, hRs, hRb]
    exact ⟨rfl, rfl, rfl⟩
  · intro hcode
    obtain ⟨g1, g2, -⟩ := httpError_flush _ (statusText 500) 500 hRh hRl hRbuf hRf
    unfold ToStd
    dsimp only
    rw [if_neg (by simp [hcode])]
    dsimp only
    rw [g1, g2, hRs, hRb]
    exact ⟨rfl, rfl, rfl⟩

/-- Witness for C1: the `TestHandleDefaultBError` request — a handler that
writes a header, a status and a body and then returns a 400 framework
error — yields a 400 plain-text `Bad Request: foo` response without touching
the unhandled-error sink. -/
theorem toStd_error_mapping_witness :
    (((-1 : Int) < 0 ∧ hostEmpty.statusWrites = [] ∧ hostEmpty.bodyChunks = [] ∧
        hostEmpty.failWrites = false) ∧
      GoErr.CodeOf (GoErr.berror 400 (GoErr.base "foo")) ≠ CodeUnknown) ∧
    ((ToStd [HAction.setHeader "Is-Bar" "rab", HAction.writeHeader 201,
        HAction.write ['h', 'i']] (some (GoErr.berror 400 (GoErr.base "foo")))
        (-1) hostEmpty).host.statusWrites = [400] ∧
      (ToStd [HAction.setHeader "Is-Bar" "rab", HAction.writeHeader 201,
        HAction.write ['h', 'i']] (some (GoErr.berror 400 (GoErr.base "foo")))
        (-1) hostEmpty).host.bodyChunks = [("Bad Request: foo").toList ++ ['\n']] ∧
      (ToStd [HAction.setHeader "Is-Bar" "rab", HAction.writeHeader 201,
        HAction.write ['h', 'i']] (some (GoErr.berror 400 (GoErr.base "foo")))
        (-1) hostEmpty).unhandledLogs = 0) := by
  have h := (toStd_error_mapping
    [HAction.setHeader "Is-Bar" "rab", HAction.writeHeader 201,
      HAction.write ['h', 'i']]
    (GoErr.berror 400 (GoErr.base "foo")) (-1) hostEmpty
    (by decide) (by decide) (by decide) (by decide)).1 (by decide)
  exact ⟨⟨⟨by decide, by decide, by decide, by decide⟩, by decide⟩,
    h.1.trans (by decide), h.2.1.trans (by decide), h.2.2⟩

/-- C2: for every request served through the adapter — whatever the handler
does with the buffered writer and whether it returns `nil` or an error — the
host writer receives exactly one `WriteHeader` call and at most one body
chunk (exactly one whenever the response body is non-empty). -/
theorem toStd_one_status_one_body (acts : List HAction) (res : Option GoErr)
    (limit : Int) (host : HostWriter) (hs : host.statusWrites = [])
    (hb : host.bodyChunks = []) (hf : host.failWrites = false) :
    (ToStd acts res limit host).host.statusWrites.length = 1 ∧
    (ToStd acts res limit host).host.bodyChunks.length ≤ 1 := by
  obtain ⟨a1, a2, a3, a4, a5⟩ :=
    runActions_sameCore acts (ResponseBuffer.newBufferResponse host limit)
  cases res with
  | none =>
      unfold ToStd
      dsimp only
      exact flush_counts _ (a1.trans hs) (a2.trans hb) (a3.trans hf)
  | some err =>
      have hbf : (runActions (ResponseBuffer.newBufferResponse host limit)
          acts).bodyFlushed = false := a4
      obtain ⟨r1, r2, r3, -, -⟩ :=
        resetOrKeep_sameCore (runActions (ResponseBuffer.newBufferResponse host limit) acts)
      by_cases hcode : GoErr.CodeOf err ≠ CodeUnknown
      · obtain ⟨h1, h2, h3, -, -⟩ := httpErrorRB_sameCore
          (resetOrKeep (runActions (ResponseBuffer.newBufferResponse host limit) acts))
          (GoErr.errString err) (GoErr.CodeOf err)
        unfold ToStd
        dsimp only
        rw [if_pos hcode]
        dsimp only
        exact flush_counts _ (h1.trans (r1.trans (a1.trans hs)))
          (h2.trans (r2.trans (a2.trans hb))) (h3.trans (r3.trans (a3.trans hf)))
      · obtain ⟨h1, h2, h3, -, -⟩ := httpErrorRB_sameCore
          (resetOrKeep (runActions (ResponseBuffer.newBufferResponse host limit) acts))
          (statusText 500) 500
        unfold ToStd
        dsimp only
        rw [if_neg hcode]
        dsimp only
        exact flush_counts _ (h1.trans (r1.trans (a1.trans hs)))
          (h2.trans (r2.trans (a2.trans hb))) (h3.trans (r3.trans (a3.trans hf)))

/-- Witness for C2: the successful-path request of `TestHandleBasic` (status
201, non-empty body, no error) reaches the host with exactly one status and
one body chunk. -/
theorem toStd_one_status_one_body_witness :
    (hostEmpty.statusWrites = [] ∧ hostEmpty.bodyChunks = [] ∧
      hostEmpty.failWrites = false) ∧
    ((ToStd [HAction.writeHeader 201, HAction.write ['h', 'i']] none (-1)
        hostEmpty).host.statusWrites.length = 1 ∧
      (ToStd [HAction.writeHeader 201, HAction.write ['h', 'i']] none (-1)
        hostEmpty).host.bodyChunks.length ≤ 1) :=
  ⟨⟨by decide, by decide, by decide⟩,
    toStd_one_status_one_body [HAction.writeHeader 201, HAction.write ['h', 'i']]
      none (-1) hostEmpty (by decide) (by decide) (by decide)⟩

end Bhttp
